import Mathlib

/-!
A shallow embedding of the favicons generation pipeline
(src/favicons/_generate.py and src/favicons/_util.py).

The filesystem is modelled as lists of existing directory paths and file
paths; path-string operations follow pathlib (`suffix`, `parent`).
Components that live in repository modules not present under src
(favicons/_types.py, favicons/_constants.py, favicons/_exceptions.py) are
modelled from the spec and carry a doc comment saying so.
-/

namespace FaviconsModel

/-- Errors raised by the pipeline. favicons/_exceptions.py is not under
src; the constructors follow the spec's error taxonomy restricted to what
the embedded code raises. `renderFail` stands for an environment-injected
per-variant render failure (ImageReadError/EncodingError/WriteError). -/
inductive FavError where
  | notFound (p : String)
  | notSupported (p : String)
  | renderFail (msg : String)
deriving DecidableEq, Repr

/-- The filesystem: which directories and which regular files exist. -/
structure FS where
  dirs : List String
  files : List String
deriving DecidableEq, Repr

/-- Python `Path.exists()`: the path exists as a directory or a file. -/
def FS.existsPath (fs : FS) (p : String) : Bool :=
  fs.dirs.contains p || fs.files.contains p

/-- Python `Path.is_dir()`: true iff the path exists and is a directory. -/
def FS.isDir (fs : FS) (p : String) : Bool :=
  fs.dirs.contains p

/-- Python `Path.unlink()` with FileNotFoundError swallowed: remove the
file if present. -/
def FS.removeFile (fs : FS) (p : String) : FS :=
  { fs with files := fs.files.filter (fun q => q ≠ p) }

/-- Split a character list at every occurrence of `sep` (the semantics of
Python `str.split(sep)` for a one-character separator). -/
def splitOnCharAux (sep : Char) : List Char → List Char → List (List Char)
  | [], acc => [acc.reverse]
  | c :: cs, acc =>
    if c = sep then acc.reverse :: splitOnCharAux sep cs []
    else splitOnCharAux sep cs (c :: acc)

/-- Split a string at every occurrence of the character `sep`. -/
def splitOnChar (sep : Char) (s : String) : List String :=
  (splitOnCharAux sep s.data []).map (fun l => String.mk l)

/-- Join strings with a separator (Python `sep.join`). -/
def joinWith (sep : String) : List String → String
  | [] => ""
  | [x] => x
  | x :: y :: xs => x ++ sep ++ joinWith sep (y :: xs)

/-- Python `str.lower()`. -/
def strToLower (s : String) : String :=
  String.mk (s.data.map Char.toLower)

/-- The final component of a path (Python `Path.name`). -/
def pathFinalComponent (p : String) : String :=
  match (splitOnChar '/' p).getLast? with
  | some s => s
  | none => p

/-- Python `Path.suffix`: the extension of the final component, including
the leading dot; empty for hidden files like ".svg" and for names without
an internal dot. -/
def suffix (p : String) : String :=
  let name := pathFinalComponent p
  match splitOnChar '.' name with
  | [] => ""
  | [_] => ""
  | c :: rest =>
    match rest.getLast? with
    | none => ""
    | some last =>
      if last = "" then ""
      else if c = "" ∧ rest.length = 1 then ""
      else "." ++ last

/-- Python `Path.parent`: drop the final component ("." for a bare name,
"/tmp" for "/tmp/x"). -/
def parent (p : String) : String :=
  match splitOnChar '/' p with
  | [] => "."
  | [_] => "."
  | parts =>
    let front := parts.dropLast
    if front = [""] then "/" else joinWith "/" front

/-- Python `Path.mkdir(parents=True)`: create the directory and every
missing ancestor. -/
def mkdirParents (fs : FS) (p : String) : FS :=
  let parts := splitOnChar '/' p
  let ancestors :=
    ((List.range parts.length).map
      (fun i => joinWith "/" (parts.take (i + 1)))).filter
      (fun s => s ≠ "")
  { fs with dirs := ancestors ++ fs.dirs }

/-- Embeds `validate_path` from src/favicons/_util.py. The string→Path
conversion is the identity here; the create branch tests `is_dir()` before
existence exactly as the source does, then the parent-creating elif; the
must_exist check runs last and raises FaviconNotFoundError. -/
def validate_path (fs : FS) (path : String) (must_exist : Bool) (create : Bool) :
    FS × Except FavError String :=
  let fs :=
    if create then
      if fs.isDir path && !(fs.existsPath path) then mkdirParents fs path
      else if !(fs.isDir path) && !(fs.existsPath (parent path)) then
        mkdirParents fs (parent path)
      else fs
    else fs
  if must_exist && !(fs.existsPath path) then (fs, .error (.notFound path))
  else (fs, .ok path)

/-- Python `tempfile.mkstemp`: a fresh temporary file name, modelled
deterministically from the number of existing files. -/
def mkstempName (fs : FS) (sfx : String) : String :=
  "/tmp/tmp" ++ toString fs.files.length ++ sfx

/-- Embeds `svg_to_png` from src/favicons/_util.py: create a temporary
.png file (mkstemp) holding the rasterized SVG and return its path. The
raster bytes themselves are not modelled. -/
def svg_to_png (fs : FS) (_svg_path : String) : FS × String :=
  let png := mkstempName fs ".png"
  ({ fs with files := png :: fs.files }, png)

/-- Modelled from the spec: a VariantDescriptor from the fixed catalog
(favicons/_types.py FaviconProperties is not under src): dimensions,
encoding, filename stem and link-relation tag. -/
structure FaviconProperties where
  image_fmt : String
  dimensions : Nat × Nat
  pfx : String
  rel : String
deriving DecidableEq, Repr

/-- Modelled from the spec: the descriptor's filename template
(FaviconProperties.__str__ in favicons/_types.py, not under src): stem,
dimensions and encoding. -/
def fmtStr (f : FaviconProperties) : String :=
  f.pfx ++ "-" ++ toString f.dimensions.1 ++ "x" ++ toString f.dimensions.2
    ++ "." ++ f.image_fmt

/-- Modelled from the spec: the supported-input-format extension set
(favicons/_constants.py SUPPORTED_FORMATS is not under src): raster
formats plus the one vector format ".svg". -/
def SUPPORTED_FORMATS : List String :=
  [".png", ".jpg", ".jpeg", ".tiff", ".svg"]

/-- Modelled from the spec: the fixed link-element template
(favicons/_constants.py HTML_LINK, not under src): relation, MIME type and
href. -/
def HTML_LINK (rel ty href : String) : String :=
  "<link rel=\"" ++ rel ++ "\" type=\"" ++ ty ++ "\" href=\"" ++ href ++ "\" />"

/-- The mutable attributes of a `Favicons` instance
(src/favicons/_generate.py, `Favicons.__init__`). -/
structure Favicons where
  source : String
  output_directory : String
  background_colors : List Nat
  transparent : Bool
  base_url : String
  formats : List FaviconProperties
  validated : Bool
  completed : Nat
  temp_source : Option String
deriving DecidableEq, Repr

/-- Embeds `Favicons._check_source_format`: if the source suffix equals
".svg" exactly, replace `_source` with the rasterized temporary PNG.
Faithful to the source: `_temp_source` is NOT assigned here. -/
def check_source_format (fs : FS) (st : Favicons) : FS × Favicons :=
  if suffix st.source = ".svg" then
    let res := svg_to_png fs st.source
    (res.1, { st with source := res.2 })
  else (fs, st)

/-- Embeds `Favicons.__init__`: set the attributes, then run
`_check_source_format` (before any path validation). The catalog
(`_formats`, from ICON_TYPES in the absent favicons/_constants.py) is a
parameter. -/
def Favicons.init (fs : FS) (source output_directory : String)
    (background_colors : List Nat) (transparent : Bool) (base_url : String)
    (formats : List FaviconProperties) : FS × Favicons :=
  check_source_format fs
    { source := source
      output_directory := output_directory
      background_colors := background_colors
      transparent := transparent
      base_url := base_url
      formats := formats
      validated := false
      completed := 0
      temp_source := none }

/-- Embeds `Favicons._validate`: validate the source path (must exist),
validate the output directory (must exist, create), then reject a source
whose lowercased suffix is not in SUPPORTED_FORMATS
(FaviconNotSupportedError); finally set `_validated`. -/
def Favicons.validate (fs : FS) (st : Favicons) : FS × Except FavError Favicons :=
  match validate_path fs st.source true false with
  | (fs₁, .error e) => (fs₁, .error e)
  | (fs₁, .ok src) =>
    match validate_path fs₁ st.output_directory true true with
    | (fs₂, .error e) => (fs₂, .error e)
    | (fs₂, .ok outdir) =>
      if SUPPORTED_FORMATS.contains (strToLower (suffix src)) then
        (fs₂,
         .ok { st with
                source := src
                output_directory := outdir
                validated := true })
      else (fs₂, .error (.notSupported src))

/-- Embeds `Favicons._close_temp_source` (run by `__exit__`/`__aexit__`):
unlink `_temp_source` if set, swallowing FileNotFoundError. -/
def close_temp_source (fs : FS) (st : Favicons) : FS :=
  match st.temp_source with
  | none => fs
  | some p => fs.removeFile p

/-- The render environment: the size PIL reports for the image at a path,
and an injected per-variant failure (none on a clean run) standing for
ImageReadError/EncodingError/WriteError inside `_generate_single`. -/
structure RenderEnv where
  srcSize : String → Nat × Nat
  fail : FaviconProperties → Option FavError

/-- The observable effect of one `_generate_single` call: the background
canvas built by `PILImage.new("RGBA", src.size, bg)`, the pad color passed
to `ImageOps.pad`, and the saved file. -/
structure Render where
  canvasSize : Nat × Nat
  canvasColor : List Nat
  padColor : List Nat
  outSize : Nat × Nat
  outPath : String
  outFmt : String
deriving DecidableEq, Repr

/-- Python tuple indexing by a bool: `((x,),(y,))[b]`. -/
def boolIndex (pair : List Nat × List Nat) (b : Bool) : List Nat :=
  if b then pair.2 else pair.1

/-- The `bg` tuple of `_generate_single`:
`self.background_color.colors + ((255,),(0,))[self.transparent]`. -/
def bgTuple (st : Favicons) : List Nat :=
  st.background_colors ++ boolIndex ([255], [0]) st.transparent

/-- Embeds `Favicons._generate_single`: on an injected failure the
exception propagates before the file is written and before `completed` is
incremented; otherwise the canvas is built at the source's size with the
`bg` tuple, the image is padded to the descriptor's dimensions with the
same `bg`, the file is written, and `completed` is incremented by one. -/
def generate_single (env : RenderEnv) (fs : FS) (st : Favicons)
    (fmt : FaviconProperties) : FS × Except FavError (Favicons × Render) :=
  match env.fail fmt with
  | some e => (fs, .error e)
  | none =>
    let bg := bgTuple st
    let outPath := st.output_directory ++ "/" ++ fmtStr fmt
    let r : Render :=
      { canvasSize := env.srcSize st.source
        canvasColor := bg
        padColor := bg
        outSize := fmt.dimensions
        outPath := outPath
        outFmt := fmt.image_fmt }
    ({ fs with files := outPath :: fs.files },
     .ok ({ st with completed := st.completed + 1 }, r))

/-- The loop of `Favicons.sgenerate`: render each catalog entry in order;
the first exception aborts the remaining entries (fail-fast). -/
def sgenerate_go (env : RenderEnv) (fs : FS) (st : Favicons) :
    List FaviconProperties → FS × Except FavError Favicons
  | [] => (fs, .ok st)
  | f :: rest =>
    match generate_single env fs st f with
    | (fs₁, .error e) => (fs₁, .error e)
    | (fs₁, .ok (st₁, _)) => sgenerate_go env fs₁ st₁ rest

/-- Embeds `Favicons.sgenerate`: validate if not yet validated, then
render the catalog sequentially. -/
def sgenerate (env : RenderEnv) (fs : FS) (st : Favicons) :
    FS × Except FavError Favicons :=
  match (if st.validated then (fs, .ok st) else Favicons.validate fs st) with
  | (fs₁, .error e) => (fs₁, .error e)
  | (fs₁, .ok st₁) => sgenerate_go env fs₁ st₁ st₁.formats

/-- The effect of `asyncio.gather` in `Favicons.agenerate`: the coroutines
contain no awaits, so every scheduled task runs to completion in catalog
order even when an earlier one raises (gather does not cancel siblings);
exceptions are recorded in order of occurrence. -/
def agenerate_go (env : RenderEnv) (fs : FS) (st : Favicons)
    (errs : List FavError) :
    List FaviconProperties → FS × Favicons × List FavError
  | [] => (fs, st, errs)
  | f :: rest =>
    match generate_single env fs st f with
    | (_, .error e) => agenerate_go env fs st (errs ++ [e]) rest
    | (fs₁, .ok (st₁, _)) => agenerate_go env fs₁ st₁ errs rest

/-- The post-validation core of `agenerate`: run every variant, collecting
errors. -/
def agenerate_run (env : RenderEnv) (fs : FS) (st : Favicons) :
    FS × Favicons × List FavError :=
  agenerate_go env fs st [] st.formats

/-- Embeds `Favicons.agenerate`: validate if needed, let all scheduled
renders settle, then propagate the FIRST exception if any occurred
(`asyncio.gather` with default `return_exceptions=False` re-raises the
first exception and discards the rest). -/
def agenerate (env : RenderEnv) (fs : FS) (st : Favicons) :
    FS × Except FavError Favicons :=
  match (if st.validated then (fs, .ok st) else Favicons.validate fs st) with
  | (fs₁, .error e) => (fs₁, .error e)
  | (fs₁, .ok st₁) =>
    match agenerate_run env fs₁ st₁ with
    | (fs₂, st₂, []) => (fs₂, .ok st₂)
    | (fs₂, _, e :: _) => (fs₂, .error e)

/-- Embeds `Favicons.html_gen`: one HTML_LINK string per catalog entry,
with href `base_url + str(fmt)`. -/
def html_gen (st : Favicons) : List String :=
  st.formats.map (fun f =>
    HTML_LINK f.rel ("image/" ++ f.image_fmt) (st.base_url ++ fmtStr f))

/-- Embeds `Favicons.filenames_gen`: one filename per catalog entry,
prefixed with `base_url` when `pre` is set. -/
def filenames_gen (st : Favicons) (pre : Bool) : List String :=
  st.formats.map (fun f => if pre then st.base_url ++ fmtStr f else fmtStr f)

/-- A loose color value as accepted by the constructor: a string or a
sequence of integer channels. -/
inductive LooseColor where
  | text (s : String)
  | channels (l : List Nat)
deriving DecidableEq, Repr

/-- The value of a hexadecimal digit character. -/
def hexVal (c : Char) : Option Nat :=
  if c.isDigit then some (c.toNat - 48)
  else if 'a' ≤ c ∧ c ≤ 'f' then some (c.toNat - 87)
  else if 'A' ≤ c ∧ c ≤ 'F' then some (c.toNat - 55)
  else none

/-- Parse a "#rrggbb" hex color string into its three channels. -/
def parseHexColor (s : String) : Option (List Nat) :=
  match s.data with
  | ['#', r1, r2, g1, g2, b1, b2] =>
    match hexVal r1, hexVal r2, hexVal g1, hexVal g2, hexVal b1, hexVal b2 with
    | some a, some a', some b, some b', some c, some c' =>
      some [a * 16 + a', b * 16 + b', c * 16 + c']
    | _, _, _, _, _, _ => none
  | _ => none

/-- Modelled from the spec: ColorSpec parsing (favicons/_types.py `Color`
is not under src). A hex string or a 3-4 integer channel sequence in
[0,255] normalizes to its channels; malformed input (InvalidColorError) is
`none`. Named colors are not modelled. -/
def colorSpec : LooseColor → Option (List Nat)
  | .text s => parseHexColor s
  | .channels l =>
    if (l.length = 3 ∨ l.length = 4) ∧ l.all (fun c => c ≤ 255) then some l
    else none

/-- Modelled from the spec: normalization to exactly 4 channels, the alpha
channel defaulted from the transparency setting exactly as the render path
does (255 opaque when transparency is off, 0 when on). -/
def colorNormalize (c : LooseColor) (transparent : Bool) : Option (List Nat) :=
  (colorSpec c).map (fun l =>
    if l.length = 4 then l
    else l ++ (if transparent then [0] else [255]))

/-- Repeated `generate()` calls on the same instance: run `sgenerate` k
times, threading the state. -/
def runs (env : RenderEnv) (fs : FS) (st : Favicons) :
    Nat → FS × Except FavError Favicons
  | 0 => (fs, .ok st)
  | k + 1 =>
    match sgenerate env fs st with
    | (fs₁, .ok st₁) => runs env fs₁ st₁ k
    | (fs₁, .error e) => (fs₁, .error e)

/-- A sample 16x16 PNG catalog descriptor. -/
def fmtA : FaviconProperties :=
  { image_fmt := "png", dimensions := (16, 16), pfx := "favicon", rel := "icon" }

/-- A sample 32x32 PNG catalog descriptor. -/
def fmtB : FaviconProperties :=
  { image_fmt := "png", dimensions := (32, 32), pfx := "favicon", rel := "icon" }

/-- A render environment in which every variant succeeds. -/
def okEnv : RenderEnv :=
  { srcSize := fun _ => (64, 64), fail := fun _ => none }

/-- A render environment in which both sample variants fail, with distinct
errors. -/
def failBothEnv : RenderEnv :=
  { srcSize := fun _ => (64, 64)
    fail := fun f =>
      if f.dimensions.1 = 16 then some (.renderFail "16x16")
      else if f.dimensions.1 = 32 then some (.renderFail "32x32")
      else none }

/-- A filesystem holding the current directory and a raster source. -/
def baseFS : FS := { dirs := ["."], files := ["icon.png"] }

/-- An already-validated pipeline state over the sample catalog. -/
def baseSt : Favicons :=
  { source := "icon.png"
    output_directory := "."
    background_colors := [0, 0, 0]
    transparent := true
    base_url := "/"
    formats := [fmtA, fmtB]
    validated := true
    completed := 0
    temp_source := none }

/-- A filesystem holding a lowercase-suffixed SVG source. -/
def svgFS : FS := { dirs := ["."], files := ["icon.svg"] }

/-- The constructor run on the ".svg" source. -/
def svgInit : FS × Favicons :=
  Favicons.init svgFS "icon.svg" "." [0, 0, 0] true "/" [fmtA]

/-- A filesystem holding an uppercase-suffixed SVG source. -/
def upperSvgFS : FS := { dirs := ["."], files := ["icon.SVG"] }

/-- The constructor run on the ".SVG" source. -/
def upperSvgInit : FS × Favicons :=
  Favicons.init upperSvgFS "icon.SVG" "." [0, 0, 0] true "/" [fmtA]

/-- A filesystem holding an unsupported ".txt" source. -/
def txtFS : FS := { dirs := ["."], files := ["notes.txt"] }

/-- The pipeline state constructed over the ".txt" source. -/
def txtSt : Favicons :=
  (Favicons.init txtFS "notes.txt" "." [0, 0, 0] true "/" [fmtA]).2

/-- A filesystem in which the requested output directory "out" is absent
while its parent "." exists. -/
def outMissingFS : FS := { dirs := ["."], files := [] }

/-- On a clean render, `generate_single` writes the output file, increments
`completed`, and reports a Render whose canvas and pad colors are the `bg`
tuple. -/
lemma generate_ok (env : RenderEnv) (fs : FS) (st : Favicons)
    (f : FaviconProperties) (h : env.fail f = none) :
    generate_single env fs st f
      = ({ fs with files := (st.output_directory ++ "/" ++ fmtStr f) :: fs.files },
         Except.ok ({ st with completed := st.completed + 1 },
           { canvasSize := env.srcSize st.source
             canvasColor := bgTuple st
             padColor := bgTuple st
             outSize := f.dimensions
             outPath := st.output_directory ++ "/" ++ fmtStr f
             outFmt := f.image_fmt })) := by
  simp [generate_single, h]

/-- On an injected failure, `generate_single` raises before writing the
file or touching the counter. -/
lemma generate_err (env : RenderEnv) (fs : FS) (st : Favicons)
    (f : FaviconProperties) (e : FavError) (h : env.fail f = some e) :
    generate_single env fs st f = (fs, .error e) := by
  simp [generate_single, h]

/-- When no render fails, the sequential loop and the gather loop thread
the filesystem and state identically and the gather loop records no
errors. -/
lemma go_agree (env : RenderEnv) (hok : ∀ f, env.fail f = none) :
    ∀ (l : List FaviconProperties) (fs : FS) (st : Favicons)
      (errs : List FavError),
      sgenerate_go env fs st l
        = ((agenerate_go env fs st errs l).1,
           Except.ok (agenerate_go env fs st errs l).2.1) ∧
      (agenerate_go env fs st errs l).2.2 = errs := by
  intro l
  induction l with
  | nil => intro fs st errs; exact ⟨rfl, rfl⟩
  | cons f rest ih =>
    intro fs st errs
    simp only [sgenerate_go, agenerate_go, generate_ok env fs st f (hok f)]
    exact ih _ _ errs

/-- The gather loop records exactly the failures of the catalog, in order,
and increments `completed` once per non-failing variant. -/
lemma agenerate_go_spec (env : RenderEnv) :
    ∀ (l : List FaviconProperties) (fs : FS) (st : Favicons)
      (errs : List FavError),
      (agenerate_go env fs st errs l).2.2 = errs ++ l.filterMap env.fail ∧
      (agenerate_go env fs st errs l).2.1.completed
        = st.completed + (l.filter (fun f => (env.fail f).isNone)).length := by
  intro l
  induction l with
  | nil => intro fs st errs; simp [agenerate_go]
  | cons f rest ih =>
    intro fs st errs
    cases hf : env.fail f with
    | some e =>
      simp only [agenerate_go, generate_err env fs st f e hf]
      obtain ⟨ha, hb⟩ := ih fs st (errs ++ [e])
      refine ⟨?_, ?_⟩
      · rw [ha]; simp [List.filterMap_cons, hf]
      · rw [hb]; simp [List.filter_cons, hf]
    | none =>
      simp only [agenerate_go, generate_ok env fs st f hf]
      obtain ⟨ha, hb⟩ := ih _ _ errs
      refine ⟨?_, ?_⟩
      · rw [ha]; simp [List.filterMap_cons, hf]
      · rw [hb]; simp [List.filter_cons, hf]; omega

/-- When no render fails, the sequential loop succeeds and the final state
is the input state with `completed` advanced by the number of variants. -/
lemma sgenerate_go_ok (env : RenderEnv) (hok : ∀ f, env.fail f = none) :
    ∀ (l : List FaviconProperties) (fs : FS) (st : Favicons),
      ∃ fs', sgenerate_go env fs st l
        = (fs', Except.ok { st with completed := st.completed + l.length }) := by
  intro l
  induction l with
  | nil => intro fs st; exact ⟨fs, by simp [sgenerate_go]⟩
  | cons f rest ih =>
    intro fs st
    obtain ⟨fs', h⟩ :=
      ih { fs with files := (st.output_directory ++ "/" ++ fmtStr f) :: fs.files }
        { st with completed := st.completed + 1 }
    refine ⟨fs', ?_⟩
    simp only [sgenerate_go, generate_ok env fs st f (hok f)]
    rw [h]
    have hc : st.completed + 1 + rest.length = st.completed + (rest.length + 1) := by
      omega
    simp [hc]

/-- When no render fails and the state is validated, `sgenerate` succeeds,
advancing `completed` by the catalog length. -/
lemma sgenerate_ok (env : RenderEnv) (hok : ∀ f, env.fail f = none)
    (fs : FS) (st : Favicons) (hv : st.validated = true) :
    ∃ fs', sgenerate env fs st
      = (fs', Except.ok { st with completed := st.completed + st.formats.length }) := by
  obtain ⟨fs', h⟩ := sgenerate_go_ok env hok st.formats fs st
  exact ⟨fs', by simp [sgenerate, hv, h]⟩

/-- C1: for an `.svg` source the temporary rasterized bitmap is created by
the constructor, but because `_check_source_format` never assigns
`_temp_source`, teardown's `_close_temp_source` is a no-op and the
temporary file is still present on the filesystem after `__exit__`,
contradicting the claim that it is deleted. -/
theorem svg_temp_file_persists_after_exit :
    svgInit.1.files.contains (mkstempName svgFS ".png") = true ∧
    svgInit.2.temp_source = none ∧
    (close_temp_source svgInit.1 svgInit.2).files.contains
      (mkstempName svgFS ".png") = true := by
  refine ⟨by rfl, by rfl, by rfl⟩

/-- C2: `validate_path` with create set never creates a missing target
directory: the branch guarded by `is_dir() and not exists()` is
unsatisfiable (a path that is a directory exists), so validating a
non-existent output directory whose parent exists raises
FaviconNotFoundError instead of creating it, contradicting the claim. -/
theorem validate_path_create_missing_dir_raises :
    validate_path outMissingFS "out" true true
      = (outMissingFS, Except.error (FavError.notFound "out")) ∧
    ∀ (fs : FS) (p : String), (fs.isDir p && !(fs.existsPath p)) = false := by
  refine ⟨by rfl, ?_⟩
  intro fs p
  show (fs.dirs.contains p && !(fs.dirs.contains p || fs.files.contains p))
        = false
  cases fs.dirs.contains p <;> simp

/-- C3: with the state validated and no render failing, the concurrent
entry point and the sequential entry point return the same filesystem
(same set of output files) and the same final state, including the
completed counter. -/
theorem sgenerate_agenerate_agree (env : RenderEnv) (fs : FS) (st : Favicons)
    (hv : st.validated = true) (hok : ∀ f, env.fail f = none) :
    agenerate env fs st = sgenerate env fs st := by
  obtain ⟨h1, h2⟩ := go_agree env hok st.formats fs st []
  rcases hgo : agenerate_go env fs st [] st.formats with ⟨fs₂, st₂, errs₂⟩
  rw [hgo] at h1 h2
  simp only at h1 h2
  subst h2
  simp [agenerate, sgenerate, agenerate_run, hv, hgo, h1]

/-- C3 witness: the two entry points agree on the concrete sample
pipeline. -/
theorem sgenerate_agenerate_agree_witness :
    agenerate okEnv baseFS baseSt = sgenerate okEnv baseFS baseSt :=
  sgenerate_agenerate_agree okEnv baseFS baseSt rfl (fun _ => rfl)

/-- C4 counterexample: with both sample variants failing, `agenerate`
surfaces only the first exception; the second failure is discarded, not
aggregated with the first. -/
theorem agenerate_first_error_only_cex :
    agenerate failBothEnv baseFS baseSt
      = (baseFS, Except.error (FavError.renderFail "16x16")) ∧
    failBothEnv.fail fmtB = some (FavError.renderFail "32x32") ∧
    FavError.renderFail "16x16" ≠ FavError.renderFail "32x32" := by
  refine ⟨rfl, rfl, by decide⟩

/-- C4 (amended): in concurrent mode every scheduled variant render
settles (the gather loop records exactly the catalog's failures in order
and increments `completed` once per non-failing variant, so every variant
is attempted), and the orchestrator then surfaces the FIRST failure alone
rather than an aggregate. -/
theorem agenerate_attempts_all_surfaces_first (env : RenderEnv) (fs : FS)
    (st : Favicons) (hv : st.validated = true) :
    (agenerate_run env fs st).2.2 = st.formats.filterMap env.fail ∧
    (agenerate_run env fs st).2.1.completed
      = st.completed + (st.formats.filter (fun f => (env.fail f).isNone)).length ∧
    agenerate env fs st
      = (match (agenerate_run env fs st).2.2 with
         | [] => ((agenerate_run env fs st).1,
                  Except.ok (agenerate_run env fs st).2.1)
         | e :: _ => ((agenerate_run env fs st).1, Except.error e)) := by
  obtain ⟨h1, h2⟩ := agenerate_go_spec env st.formats fs st []
  refine ⟨by simpa [agenerate_run] using h1, by simpa [agenerate_run] using h2, ?_⟩
  rcases hgo : agenerate_run env fs st with ⟨fs₂, st₂, errs₂⟩
  simp only [agenerate, agenerate_run, hv, if_true] at hgo ⊢
  rw [hgo]
  cases errs₂ <;> rfl

/-- C4 witness: the amended behavior at the concrete sample pipeline with
both variants failing. -/
theorem agenerate_attempts_all_surfaces_first_witness :
    baseSt.validated = true ∧
    ((agenerate_run failBothEnv baseFS baseSt).2.2
        = baseSt.formats.filterMap failBothEnv.fail ∧
     (agenerate_run failBothEnv baseFS baseSt).2.1.completed
        = baseSt.completed
          + (baseSt.formats.filter (fun f => (failBothEnv.fail f).isNone)).length ∧
     agenerate failBothEnv baseFS baseSt
        = (match (agenerate_run failBothEnv baseFS baseSt).2.2 with
           | [] => ((agenerate_run failBothEnv baseFS baseSt).1,
                    Except.ok (agenerate_run failBothEnv baseFS baseSt).2.1)
           | e :: _ => ((agenerate_run failBothEnv baseFS baseSt).1,
                        Except.error e))) :=
  ⟨rfl, agenerate_attempts_all_surfaces_first failBothEnv baseFS baseSt rfl⟩

/-- C5: every successful single-variant render builds its background
canvas from the background color's channels plus an alpha of 255 when the
transparent flag is false and 0 when it is true, and pads with exactly the
same channel tuple. -/
theorem render_background_alpha (env : RenderEnv) (fs : FS) (st : Favicons)
    (fmt : FaviconProperties) (h : env.fail fmt = none) :
    ∃ r : Render,
      (generate_single env fs st fmt).2
        = Except.ok ({ st with completed := st.completed + 1 }, r) ∧
      r.canvasColor
        = st.background_colors ++ (if st.transparent then [0] else [255]) ∧
      r.padColor = r.canvasColor := by
  refine ⟨{ canvasSize := env.srcSize st.source
            canvasColor := bgTuple st
            padColor := bgTuple st
            outSize := fmt.dimensions
            outPath := st.output_directory ++ "/" ++ fmtStr fmt
            outFmt := fmt.image_fmt }, ?_, ?_, rfl⟩
  · rw [generate_ok env fs st fmt h]
  · cases ht : st.transparent <;> simp [bgTuple, boolIndex, ht]

/-- C5 witness: the background/pad tuple at the concrete sample render. -/
theorem render_background_alpha_witness :
    okEnv.fail fmtA = none ∧
    ∃ r : Render,
      (generate_single okEnv baseFS baseSt fmtA).2
        = Except.ok ({ baseSt with completed := baseSt.completed + 1 }, r) ∧
      r.canvasColor
        = baseSt.background_colors
            ++ (if baseSt.transparent then [0] else [255]) ∧
      r.padColor = r.canvasColor :=
  ⟨rfl, render_background_alpha okEnv baseFS baseSt fmtA rfl⟩

/-- C6: with an existing source whose lowercased suffix is not in the
supported set and an existing output directory, both entry points raise
FaviconNotSupportedError during validation, leaving the filesystem — in
particular its set of files — untouched. -/
theorem unsupported_extension_rejected (env : RenderEnv) (fs : FS)
    (st : Favicons)
    (h1 : fs.files.contains st.source = true)
    (h2 : fs.dirs.contains st.output_directory = true)
    (h3 : SUPPORTED_FORMATS.contains (strToLower (suffix st.source)) = false)
    (h4 : st.validated = false) :
    sgenerate env fs st = (fs, Except.error (FavError.notSupported st.source)) ∧
    agenerate env fs st = (fs, Except.error (FavError.notSupported st.source)) := by
  have h1m : st.source ∈ fs.files := by simpa using h1
  have h2m : st.output_directory ∈ fs.dirs := by simpa using h2
  have h3m : strToLower (suffix st.source) ∉ SUPPORTED_FORMATS := by
    simpa using h3
  have e1 : validate_path fs st.source true false = (fs, .ok st.source) := by
    simp [validate_path, FS.existsPath, h1m]
  have e2 : validate_path fs st.output_directory true true
      = (fs, .ok st.output_directory) := by
    simp [validate_path, FS.existsPath, FS.isDir, h2m]
  have hv : Favicons.validate fs st
      = (fs, .error (.notSupported st.source)) := by
    simp [Favicons.validate, e1, e2, h3m]
  constructor <;> simp [sgenerate, agenerate, h4, hv]

/-- C6 witness: the ".txt" source on the concrete sample filesystem. -/
theorem unsupported_extension_rejected_witness :
    txtFS.files.contains txtSt.source = true ∧
    (sgenerate okEnv txtFS txtSt
        = (txtFS, Except.error (FavError.notSupported txtSt.source)) ∧
     agenerate okEnv txtFS txtSt
        = (txtFS, Except.error (FavError.notSupported txtSt.source))) :=
  ⟨by rfl,
   unsupported_extension_rejected okEnv txtFS txtSt (by rfl) (by rfl) (by rfl)
     (by rfl)⟩

/-- Mapping the link template over the catalog agrees with zipping the
prefixed filenames back against the catalog. -/
lemma map_zip_html (base : String) :
    ∀ l : List FaviconProperties,
      l.map (fun f => HTML_LINK f.rel ("image/" ++ f.image_fmt) (base ++ fmtStr f))
        = ((l.map (fun f => base ++ fmtStr f)).zip l).map
            (fun p => HTML_LINK p.2.rel ("image/" ++ p.2.image_fmt) p.1) := by
  intro l
  induction l with
  | nil => rfl
  | cons f rest ih => simp only [List.map_cons, List.zip_cons_cons, ih]

/-- C7: each element of the links sequence is the link template applied to
the corresponding element of the prefixed filenames sequence as its href;
the two sequences have the same length and order, and the prefixed
filenames are exactly the unprefixed ones with the base URL prepended. -/
theorem links_filenames_agree (st : Favicons) :
    html_gen st
      = ((filenames_gen st true).zip st.formats).map
          (fun p => HTML_LINK p.2.rel ("image/" ++ p.2.image_fmt) p.1) ∧
    (html_gen st).length = (filenames_gen st true).length ∧
    filenames_gen st true
      = (filenames_gen st false).map (fun f => st.base_url ++ f) := by
  refine ⟨?_, ?_, ?_⟩
  · simpa [html_gen, filenames_gen] using map_zip_html st.base_url st.formats
  · simp [html_gen, filenames_gen]
  · simp [filenames_gen]

/-- C8: the hex string "#000000" and the channel tuple (0,0,0) normalize
to the same 4-channel tuple for either fixed transparency setting. -/
theorem colorspec_representation_invariant (t : Bool) :
    colorNormalize (.text "#000000") t = colorNormalize (.channels [0, 0, 0]) t ∧
    colorNormalize (.text "#000000") t
      = some [0, 0, 0, if t then 0 else 255] := by
  cases t <;> exact ⟨rfl, rfl⟩

/-- C9: vector detection compares the suffix to ".svg" case-sensitively:
any source whose suffix is not exactly ".svg" is left unrasterized; the
".SVG" source is untouched by the constructor yet passes the
case-insensitive format validation; and for an ".svg" source the
temporary bitmap is created by the constructor while `_validated` is still
false, i.e. before any path validation. -/
theorem svg_detection_exact_case (fs : FS) (st : Favicons)
    (h : ¬ suffix st.source = ".svg") :
    check_source_format fs st = (fs, st) ∧
    upperSvgInit = (upperSvgFS, upperSvgInit.2) ∧
    upperSvgInit.2.source = "icon.SVG" ∧
    (Favicons.validate upperSvgFS upperSvgInit.2).2
      = Except.ok { upperSvgInit.2 with validated := true } ∧
    svgInit.2.validated = false ∧
    svgInit.1.files.contains (mkstempName svgFS ".png") = true := by
  refine ⟨?_, by rfl, by rfl, by rfl, by rfl, by rfl⟩
  simp [check_source_format, h]

/-- C9 witness: instantiated at the ".txt" source, whose suffix is not
".svg". -/
theorem svg_detection_exact_case_witness :
    ¬ suffix txtSt.source = ".svg" ∧
    (check_source_format txtFS txtSt = (txtFS, txtSt) ∧
     upperSvgInit = (upperSvgFS, upperSvgInit.2) ∧
     upperSvgInit.2.source = "icon.SVG" ∧
     (Favicons.validate upperSvgFS upperSvgInit.2).2
        = Except.ok { upperSvgInit.2 with validated := true } ∧
     svgInit.2.validated = false ∧
     svgInit.1.files.contains (mkstempName svgFS ".png") = true) :=
  ⟨by decide, svg_detection_exact_case txtFS txtSt (by decide)⟩

/-- With no failures, k successive `sgenerate` calls succeed and advance
`completed` by k times the catalog length, preserving validation and the
catalog. -/
lemma runs_ok (env : RenderEnv) (hok : ∀ f, env.fail f = none) :
    ∀ (k : Nat) (fs : FS) (st : Favicons), st.validated = true →
      ∃ fs' st', runs env fs st k = (fs', Except.ok st') ∧
        st'.completed = st.completed + k * st.formats.length ∧
        st'.validated = true ∧ st'.formats = st.formats := by
  intro k
  induction k with
  | zero => intro fs st hv; exact ⟨fs, st, rfl, by simp, hv, rfl⟩
  | succ k ih =>
    intro fs st hv
    obtain ⟨fs₁, h1⟩ := sgenerate_ok env hok fs st hv
    obtain ⟨fs', st', hr, hc, hv', hf'⟩ :=
      ih fs₁ { st with completed := st.completed + st.formats.length } hv
    refine ⟨fs', st', ?_, ?_, hv', by rw [hf']⟩
    · simp [runs, h1, hr]
    · simp only at hc hf'
      rw [hc]
      ring

/-- C10: `completed` is initialized to 0 by the constructor, and k
successful full generation runs over the same instance leave it at
exactly k times the catalog length — it accumulates across repeated
generate() calls and never decreases. -/
theorem completed_accumulates (env : RenderEnv) (fs : FS) (st : Favicons)
    (k : Nat) (hv : st.validated = true) (hok : ∀ f, env.fail f = none) :
    (∀ (fs₀ : FS) (src out : String) (c : List Nat) (t : Bool) (b : String)
        (fmts : List FaviconProperties),
        (Favicons.init fs₀ src out c t b fmts).2.completed = 0) ∧
    ∃ fs' st', runs env fs st k = (fs', Except.ok st') ∧
      st'.completed = st.completed + k * st.formats.length ∧
      st.completed ≤ st'.completed := by
  refine ⟨?_, ?_⟩
  · intro fs₀ src out c t b fmts
    unfold Favicons.init check_source_format
    split <;> rfl
  · obtain ⟨fs', st', hr, hc, _, _⟩ := runs_ok env hok k fs st hv
    refine ⟨fs', st', hr, hc, ?_⟩
    rw [hc]
    exact Nat.le_add_right _ _

/-- C10 witness: two successful runs over the two-variant sample catalog
leave `completed` at 4. -/
theorem completed_accumulates_witness :
    baseSt.validated = true ∧
    ((∀ (fs₀ : FS) (src out : String) (c : List Nat) (t : Bool) (b : String)
        (fmts : List FaviconProperties),
        (Favicons.init fs₀ src out c t b fmts).2.completed = 0) ∧
     ∃ fs' st', runs okEnv baseFS baseSt 2 = (fs', Except.ok st') ∧
       st'.completed = baseSt.completed + 2 * baseSt.formats.length ∧
       baseSt.completed ≤ st'.completed) :=
  ⟨rfl, completed_accumulates okEnv baseFS baseSt 2 rfl (fun _ => rfl)⟩

end FaviconsModel
